import Mathlib

/-!
Verification of the xhook controller remap engine (src/src/xhook.c, third
compilation unit: the `controller` program).  The definitions below are a
shallow embedding of the C source: emitted input records become elements of
a trace list, the mutable `struct state` becomes an explicit record threaded
through the functions, and subprocess side effects (window outline, menu
launch) become opaque trace markers.
-/

namespace Xhook

/-! Linux input event type/code constants, as used by the source. -/

def EV_SYN : Nat := 0
def EV_KEY : Nat := 1
def EV_REL : Nat := 2
def SYN_REPORT : Nat := 0
def REL_X : Nat := 0
def REL_Y : Nat := 1

def KEY_ESC : Nat := 1
def KEY_1 : Nat := 2
def KEY_2 : Nat := 3
def KEY_4 : Nat := 5
def KEY_EQUAL : Nat := 13
def KEY_TAB : Nat := 15
def KEY_W : Nat := 17
def KEY_R : Nat := 19
def KEY_T : Nat := 20
def KEY_I : Nat := 23
def KEY_LEFTBRACE : Nat := 26
def KEY_ENTER : Nat := 28
def KEY_LEFTCTRL : Nat := 29
def KEY_A : Nat := 30
def KEY_F : Nat := 33
def KEY_G : Nat := 34
def KEY_H : Nat := 35
def KEY_K : Nat := 37
def KEY_L : Nat := 38
def KEY_LEFTSHIFT : Nat := 42
def KEY_Z : Nat := 44
def KEY_C : Nat := 46
def KEY_V : Nat := 47
def KEY_M : Nat := 50
def KEY_LEFTALT : Nat := 56
def KEY_SPACE : Nat := 57
def KEY_F1 : Nat := 59
def KEY_F2 : Nat := 60
def KEY_F3 : Nat := 61
def KEY_F5 : Nat := 63
def KEY_F8 : Nat := 66
def KEY_F9 : Nat := 67
def KEY_F10 : Nat := 68
def KEY_102ND : Nat := 86
def KEY_UP : Nat := 103
def KEY_LEFT : Nat := 105
def KEY_RIGHT : Nat := 106
def KEY_DOWN : Nat := 108
def KEY_LEFTMETA : Nat := 125
def KEY_RIGHTMETA : Nat := 126
def KEY_KPLEFTPAREN : Nat := 179
def BTN_LEFT : Nat := 272
def BTN_THUMB : Nat := 289
def BTN_THUMB2 : Nat := 290
def BTN_BASE3 : Nat := 296
def BTN_BASE4 : Nat := 297

/-- DPAD codes defined by the source (`#define DPAD_UP 0x12c` ...). -/
def DPAD_UP : Nat := 0x12c
def DPAD_RIGHT : Nat := 0x12d
def DPAD_DOWN : Nat := 0x12e
def DPAD_LEFT : Nat := 0x12f

/-- One raw record read from the physical device (`struct input_event`,
restricted to the fields the program uses: type, code, value). -/
structure input_event where
  etype : Nat
  code : Nat
  value : Int
deriving DecidableEq, Repr

/-- One observable action of the engine: a record written to the uinput
sink (`emit_event`), the `tiny_sleep` settle delay, or one of the spawned
side effects (`show_window_outline`, `launch_menu`). -/
inductive emission where
  | ev (ty code : Nat) (value : Int)
  | sleep
  | outline
  | menu
deriving DecidableEq, Repr

/-- Synchronization marker, `emit_event(s, EV_SYN, SYN_REPORT, 0)`. -/
def synev : emission := .ev EV_SYN SYN_REPORT 0

/-- The tracked button flags (`struct keys`). -/
structure keys where
  up : Bool
  down : Bool
  right : Bool
  left : Bool
  select : Bool
  start : Bool
  a : Bool
  b : Bool
deriving DecidableEq, Repr

/-- The mutable engine state (`struct state`, restricted to the fields the
dispatch logic reads and writes). -/
structure state where
  k : keys
  mouse_mode : Bool
  mouse_movement_distance : Nat
deriving DecidableEq, Repr

/-- The state as `state_init` leaves it: `memset(s, 0, sizeof(*s))` zeroes
every flag and the distance counter. -/
def init_state : state :=
  { k := ⟨false, false, false, false, false, false, false, false⟩
    mouse_mode := false
    mouse_movement_distance := 0 }

/-- `struct mod`: which modifier keys must bracket a synthesized key. -/
structure mod where
  shift : Bool := false
  meta : Bool := false
  alt : Bool := false
  ctrl : Bool := false
  super : Bool := false
deriving DecidableEq, Repr

/-- The focused window, reduced to what dispatch inspects: its WM_CLASS
tag list. -/
structure window where
  class_tags : List String
deriving DecidableEq, Repr

/-- `xlib_window_has_class`: scans the class tag list with `strcmp`. -/
def window_has_class (w : window) (cls : String) : Bool :=
  w.class_tags.contains cls

/-- `emit_key_event`: press (`st ≠ 0`) emits the requested modifiers in the
fixed order shift, meta (followed by `tiny_sleep`), alt, super, ctrl, then a
sync, the key press and a sync; release emits the key release, a sync, the
modifiers in the reverse order and a final sync. -/
def emit_key_event (key : Nat) (st : Int) (m : mod) : List emission :=
  if st ≠ 0 then
    (if m.shift then [.ev EV_KEY KEY_LEFTSHIFT 1] else []) ++
    (if m.meta then [.ev EV_KEY KEY_LEFTMETA 1, .sleep] else []) ++
    (if m.alt then [.ev EV_KEY KEY_LEFTALT 1] else []) ++
    (if m.super then [.ev EV_KEY KEY_RIGHTMETA 1] else []) ++
    (if m.ctrl then [.ev EV_KEY KEY_LEFTCTRL 1] else []) ++
    [synev, .ev EV_KEY key 1, synev]
  else
    [.ev EV_KEY key 0, synev] ++
    (if m.ctrl then [.ev EV_KEY KEY_LEFTCTRL 0] else []) ++
    (if m.super then [.ev EV_KEY KEY_RIGHTMETA 0] else []) ++
    (if m.alt then [.ev EV_KEY KEY_LEFTALT 0] else []) ++
    (if m.meta then [.ev EV_KEY KEY_LEFTMETA 0] else []) ++
    (if m.shift then [.ev EV_KEY KEY_LEFTSHIFT 0] else []) ++
    [synev]

/-- `emit_key_press_mod`: a full press followed by a full release. -/
def emit_key_press_mod (key : Nat) (m : mod) : List emission :=
  emit_key_event key 1 m ++ emit_key_event key 0 m

/-- `emit_key_press`: press+release with the empty modifier set. -/
def emit_key_press (key : Nat) : List emission :=
  emit_key_press_mod key {}

/-- `update_key_state`: mirror the last press/release value of each tracked
code into the flags; a select press additionally spawns the window
outline.  Codes outside the tracked set, and values other than 0/1, leave
the state untouched. -/
def update_key_state (s : state) (e : input_event) : state × List emission :=
  let k := s.k
  let k :=
    if e.code = DPAD_LEFT ∧ (e.value = 1 ∨ e.value = 0) then
      { k with left := e.value == 1 } else k
  let k :=
    if e.code = DPAD_RIGHT ∧ (e.value = 1 ∨ e.value = 0) then
      { k with right := e.value == 1 } else k
  let k :=
    if e.code = DPAD_UP ∧ (e.value = 1 ∨ e.value = 0) then
      { k with up := e.value == 1 } else k
  let k :=
    if e.code = DPAD_DOWN ∧ (e.value = 1 ∨ e.value = 0) then
      { k with down := e.value == 1 } else k
  let k :=
    if e.code = BTN_BASE3 ∧ (e.value = 1 ∨ e.value = 0) then
      { k with select := e.value == 1 } else k
  let t :=
    if e.code = BTN_BASE3 ∧ e.value = 1 then [emission.outline] else []
  let k :=
    if e.code = BTN_BASE4 ∧ (e.value = 1 ∨ e.value = 0) then
      { k with start := e.value == 1 } else k
  let k :=
    if e.code = BTN_THUMB ∧ (e.value = 1 ∨ e.value = 0) then
      { k with a := e.value == 1 } else k
  let k :=
    if e.code = BTN_THUMB2 ∧ (e.value = 1 ∨ e.value = 0) then
      { k with b := e.value == 1 } else k
  ({ s with k := k }, t)

/-- `map_dpad_to_arrow_keys`: leaves mouse emulation mode and forwards a
dpad press/release as the corresponding arrow key plus a sync. -/
def map_dpad_to_arrow_keys (s : state) (e : input_event) : state × List emission :=
  let t :=
    (if e.code = DPAD_UP ∧ (e.value = 1 ∨ e.value = 0) then
      [.ev EV_KEY KEY_UP e.value, synev] else []) ++
    (if e.code = DPAD_DOWN ∧ (e.value = 1 ∨ e.value = 0) then
      [.ev EV_KEY KEY_DOWN e.value, synev] else []) ++
    (if e.code = DPAD_RIGHT ∧ (e.value = 1 ∨ e.value = 0) then
      [.ev EV_KEY KEY_RIGHT e.value, synev] else []) ++
    (if e.code = DPAD_LEFT ∧ (e.value = 1 ∨ e.value = 0) then
      [.ev EV_KEY KEY_LEFT e.value, synev] else [])
  ({ s with mouse_mode := false }, t)

/-- The horizontal delta computed by `emit_mouse_movements`:
`d = mouse_movement_distance / 10`, left pulls `-d`, right pulls `d`. -/
def mouse_dx (s : state) : Int :=
  let d : Int := Int.ofNat (s.mouse_movement_distance / 10)
  (if s.k.left then -d else 0) + (if s.k.right then d else 0)

/-- The vertical delta computed by `emit_mouse_movements`:
up pulls `-d`, down pulls `d`. -/
def mouse_dy (s : state) : Int :=
  let d : Int := Int.ofNat (s.mouse_movement_distance / 10)
  (if s.k.up then -d else 0) + (if s.k.down then d else 0)

/-- `emit_mouse_movements`: emit each axis only when its delta is non-zero,
and a terminating sync only when at least one axis was emitted. -/
def emit_mouse_movements (s : state) : List emission :=
  (if mouse_dx s ≠ 0 then [.ev EV_REL REL_X (mouse_dx s)] else []) ++
  (if mouse_dy s ≠ 0 then [.ev EV_REL REL_Y (mouse_dy s)] else []) ++
  (if mouse_dx s ≠ 0 ∨ mouse_dy s ≠ 0 then [synev] else [])

/-- `map_dpad_to_mouse`: enter mouse emulation mode and emit one burst. -/
def map_dpad_to_mouse (s : state) : state × List emission :=
  ({ s with mouse_mode := true }, emit_mouse_movements s)

/-- The `feh` branch of `handle_event`. -/
def feh_branch (s : state) (e : input_event) : state × List emission :=
  if s.k.b then
    (s,
      (if e.code = DPAD_UP ∧ (e.value = 1 ∨ e.value = 0) then
        emit_key_event KEY_UP e.value { ctrl := true } else []) ++
      (if e.code = DPAD_DOWN ∧ (e.value = 1 ∨ e.value = 0) then
        emit_key_event KEY_DOWN e.value { ctrl := true } else []) ++
      (if e.code = DPAD_LEFT ∧ (e.value = 1 ∨ e.value = 0) then
        emit_key_event KEY_LEFT e.value { ctrl := true } else []) ++
      (if e.code = DPAD_RIGHT ∧ (e.value = 1 ∨ e.value = 0) then
        emit_key_event KEY_RIGHT e.value { ctrl := true } else []) ++
      (if e.code = BTN_THUMB ∧ e.value = 1 then emit_key_press KEY_Z else []))
  else
    let r := map_dpad_to_arrow_keys s e
    (r.1, r.2 ++
      (if e.code = BTN_THUMB ∧ e.value = 1 then emit_key_press KEY_H else []))

/-- The `mpv` branch of `handle_event`. -/
def mpv_branch (s : state) (e : input_event) : state × List emission :=
  if s.k.b then
    (s,
      (if e.code = BTN_THUMB ∧ e.value = 1 then emit_key_press KEY_M else []) ++
      (if e.code = DPAD_UP ∧ e.value = 1 then emit_key_press KEY_L else []) ++
      (if e.code = DPAD_DOWN ∧ e.value = 1 then
        emit_key_press_mod KEY_L { shift := true } else []) ++
      (if e.code = DPAD_RIGHT ∧ e.value = 1 then emit_key_press KEY_ENTER else []) ++
      (if e.code = DPAD_LEFT ∧ e.value = 1 then emit_key_press KEY_102ND else []))
  else
    let r := map_dpad_to_arrow_keys s e
    (r.1,
      (if e.code = BTN_THUMB ∧ e.value = 1 then emit_key_press KEY_SPACE else []) ++
      r.2)

/-- The `streamlink-twitch-gui` branch of `handle_event`. -/
def streamlink_branch (s : state) (e : input_event) : state × List emission :=
  if s.k.b then
    (s, if e.code = BTN_THUMB ∧ e.value = 1 then emit_key_press KEY_F5 else [])
  else
    let r := map_dpad_to_mouse s
    (r.1,
      (if e.code = BTN_THUMB ∧ (e.value = 1 ∨ e.value = 0) then
        [.ev EV_KEY BTN_LEFT e.value, synev] else []) ++
      r.2)

/-- The `chromium` branch of `handle_event`. -/
def chromium_branch (s : state) (e : input_event) : state × List emission :=
  if s.k.b then
    ({ s with mouse_mode := false },
      (if e.code = DPAD_UP ∧ e.value = 1 then emit_key_press KEY_F else []) ++
      (if e.code = DPAD_RIGHT ∧ (e.value = 1 ∨ e.value = 0) then
        [.ev EV_KEY KEY_RIGHT e.value, synev] else []) ++
      (if e.code = DPAD_LEFT ∧ (e.value = 1 ∨ e.value = 0) then
        [.ev EV_KEY KEY_LEFT e.value, synev] else []) ++
      (if e.code = DPAD_DOWN ∧ e.value = 1 then emit_key_press KEY_F5 else []) ++
      (if e.code = BTN_THUMB ∧ e.value = 1 then emit_key_press KEY_SPACE else []))
  else
    let r := map_dpad_to_mouse s
    (r.1,
      (if e.code = BTN_THUMB ∧ (e.value = 1 ∨ e.value = 0) then
        [.ev EV_KEY BTN_LEFT e.value, synev] else []) ++
      r.2)

/-- The `dmenu` branch of `handle_event` (no B-held split). -/
def dmenu_branch (s : state) (e : input_event) : state × List emission :=
  let r := map_dpad_to_arrow_keys s e
  (r.1,
    (if e.code = BTN_THUMB ∧ e.value = 1 then emit_key_press KEY_ENTER else []) ++
    (if e.code = BTN_THUMB2 ∧ e.value = 1 then emit_key_press KEY_ESC else []) ++
    r.2)

/-- The `spotify` branch of `handle_event`. -/
def spotify_branch (s : state) (e : input_event) : state × List emission :=
  if s.k.b then
    ({ s with mouse_mode := false },
      (if e.code = BTN_THUMB ∧ e.value = 1 then emit_key_press KEY_SPACE else []) ++
      (if e.code = DPAD_UP ∧ (e.value = 1 ∨ e.value = 0) then
        [.ev EV_KEY KEY_UP e.value, synev] else []) ++
      (if e.code = DPAD_DOWN ∧ (e.value = 1 ∨ e.value = 0) then
        [.ev EV_KEY KEY_DOWN e.value, synev] else []) ++
      (if e.code = DPAD_RIGHT ∧ e.value = 1 then emit_key_press KEY_ENTER else []))
  else
    let r := map_dpad_to_mouse s
    (r.1,
      (if e.code = BTN_THUMB ∧ e.value = 1 then emit_key_press BTN_LEFT else []) ++
      r.2)

/-- The `obs` branch of `handle_event`. -/
def obs_branch (s : state) (e : input_event) : state × List emission :=
  if s.k.b then
    (s,
      (if e.code = DPAD_UP ∧ e.value = 1 then emit_key_press KEY_F9 else []) ++
      (if e.code = DPAD_DOWN ∧ e.value = 1 then
        emit_key_press_mod KEY_F9 { shift := true } else []) ++
      (if e.code = BTN_THUMB ∧ e.value = 1 then emit_key_press KEY_F10 else []))
  else
    (s,
      (if e.code = DPAD_DOWN ∧ e.value = 1 then emit_key_press KEY_F3 else []) ++
      (if e.code = DPAD_UP ∧ e.value = 1 then emit_key_press KEY_F5 else []) ++
      (if e.code = DPAD_LEFT ∧ e.value = 1 then emit_key_press KEY_F1 else []) ++
      (if e.code = DPAD_RIGHT ∧ e.value = 1 then emit_key_press KEY_F2 else []) ++
      (if e.code = BTN_THUMB ∧ e.value = 1 then emit_key_press KEY_F8 else []))

/-- The `Sausage.x86_64` branch of `handle_event` (no B-held split). -/
def sausage_branch (s : state) (e : input_event) : state × List emission :=
  let r := map_dpad_to_arrow_keys s e
  (r.1,
    (if e.code = BTN_THUMB ∧ e.value = 1 then emit_key_press KEY_Z else []) ++
    (if e.code = BTN_THUMB2 ∧ e.value = 1 then emit_key_press KEY_R else []) ++
    r.2)

/-- The ordered application identity chain of `handle_event`: the first
matching class wins; no match does nothing. -/
def dispatch_app (s : state) (w : window) (e : input_event) : state × List emission :=
  if window_has_class w "feh" then feh_branch s e
  else if window_has_class w "mpv" then mpv_branch s e
  else if window_has_class w "streamlink-twitch-gui" then streamlink_branch s e
  else if window_has_class w "chromium" then chromium_branch s e
  else if window_has_class w "dmenu" then dmenu_branch s e
  else if window_has_class w "spotify" then spotify_branch s e
  else if window_has_class w "obs" then obs_branch s e
  else if window_has_class w "Sausage.x86_64" then sausage_branch s e
  else (s, [])

/-- The select-chord branch of `handle_event`, taken when the select flag
is held after the state update. -/
def select_chord (e : input_event) : List emission :=
  (if e.code = DPAD_UP ∧ e.value = 1 then
    emit_key_press_mod KEY_TAB { alt := true } ++ [emission.outline] else []) ++
  (if e.code = DPAD_DOWN ∧ e.value = 1 then
    emit_key_press_mod KEY_ENTER { alt := true } else []) ++
  (if e.code = DPAD_LEFT ∧ e.value = 1 then
    emit_key_press_mod KEY_H { alt := true } ++ [emission.outline] else []) ++
  (if e.code = DPAD_RIGHT ∧ e.value = 1 then
    emit_key_press_mod KEY_L { alt := true } ++ [emission.outline] else []) ++
  (if e.code = BTN_BASE4 ∧ e.value = 1 then [emission.menu] else []) ++
  (if e.code = BTN_THUMB ∧ e.value = 1 then
    emit_key_press_mod KEY_SPACE { alt := true } else []) ++
  (if e.code = BTN_THUMB2 ∧ e.value = 1 then
    emit_key_press_mod KEY_C { shift := true, alt := true } else [])

/-- `handle_event`: ignore non-KEY records; update the chord state; while
select is held take the global chord and return; otherwise apply the
cross-cutting start mapping and then the per-application chain. -/
def handle_event (s : state) (w : window) (e : input_event) : state × List emission :=
  if e.etype ≠ EV_KEY then (s, [])
  else
    let s1 := (update_key_state s e).1
    let t0 := (update_key_state s e).2
    if s1.k.select then
      (s1, t0 ++ select_chord e)
    else
      let t1 :=
        if e.code = BTN_BASE4 ∧ e.value = 1 then
          emit_key_press_mod KEY_K { alt := true } else []
      let r := dispatch_app s1 w e
      (r.1, t0 ++ t1 ++ r.2)

/-- `handle_timeout`: while mouse emulation is active, either leave the
mode (no direction held: reset the distance to the floor 10) or emit one
burst and accelerate. -/
def handle_timeout (s : state) : state × List emission :=
  if s.mouse_mode then
    if s.k.up = false ∧ s.k.down = false ∧ s.k.left = false ∧ s.k.right = false then
      ({ s with mouse_mode := false, mouse_movement_distance := 10 }, [])
    else
      ({ s with mouse_movement_distance := s.mouse_movement_distance + 1 },
        emit_mouse_movements s)
  else (s, [])

/-- Iterated timeout ticks (state part only): what happens to the state
when `n` poll timeouts fire with no intervening device event. -/
def tick_n : Nat → state → state
  | 0, s => s
  | n + 1, s => tick_n n (handle_timeout s).1

/-- Whether any directional flag is held. -/
def any_direction (s : state) : Bool :=
  s.k.up || s.k.down || s.k.left || s.k.right

/-! The menu subsystem (`run_menu`, `select_workspace`).  The chooser
subprocess is modelled by the byte stream it writes to its standard output
before closing it; labels are byte lists (C strings without their NUL). -/

/-- Byte string of a label. -/
def str_bytes (s : String) : List Nat :=
  s.toList.map Char.toNat

/-- `strncmp(name, buf, n) == 0` where `name` points at a NUL-terminated C
string whose bytes before the terminator are the first argument, and `buf`
points at the read buffer holding the second argument's bytes.  The
comparison walks at most `n` byte pairs and stops at the first difference
or at the name's terminator. -/
def cstr_matches_buf : List Nat → List Nat → Nat → Bool
  | _, _, 0 => true
  | [], b :: _, _ + 1 => b == 0
  | [], [], _ + 1 => false
  | _ :: _, [], _ + 1 => false
  | a :: as, b :: bs, n + 1 => a == b && cstr_matches_buf as bs n

/-- Size of `run_menu`'s read buffer (`char buf[1024]`). -/
def menu_buf_size : Nat := 1024

/-- What `run_menu`'s read loop leaves in `buf`. -/
inductive menu_read_result where
  | chosen_line (line : List Nat)
  | no_selection
  | overflow (raw : List Nat)
deriving DecidableEq, Repr

/-- `run_menu`'s read loop: scan the chooser's output for a newline within
the first 1024 bytes.  A newline yields the bytes before it (the loop
replaces the newline by a NUL); end of stream before a newline and before
the buffer fills yields no selection; 1024 bytes with no newline fall out
of the loop into the matching code with the raw, unterminated buffer. -/
def run_menu_read (out : List Nat) : menu_read_result :=
  let pre := out.take menu_buf_size
  if pre.contains 10 then .chosen_line (pre.takeWhile (fun b => b ≠ 10))
  else if out.length < menu_buf_size then .no_selection
  else .overflow pre

/-- The matching loop of `run_menu`: the first item whose label matches
`strncmp(ms[k].name, buf, 1024) == 0` wins; the result is its index. -/
def run_menu_match : List (List Nat) → List Nat → Option Nat
  | [], _ => none
  | nm :: rest, buf =>
    if cstr_matches_buf nm buf menu_buf_size then some 0
    else (run_menu_match rest buf).map (· + 1)

/-- `run_menu`, reduced to which item (by index) ends up chosen for a given
chooser output: `none` means the function returns NULL and invokes no
callback. -/
def run_menu_choice (names : List (List Nat)) (out : List Nat) : Option Nat :=
  match run_menu_read out with
  | .no_selection => none
  | .chosen_line line => run_menu_match names (line ++ [0])
  | .overflow raw => run_menu_match names raw

/-- The fixed item list of the workspace sub-menu in `select_workspace`. -/
def workspace_names : List (List Nat) :=
  ["w", "v", "m", "c", "g", "1", "2", "3", "4", "5", "6"].map str_bytes

/-- `select_workspace`: run the nested workspace menu and then read the
chosen item's label (`choice->name` in the C source, dereferenced without
a NULL check).  A `none` result marks exactly the executions in which the
C code dereferences the null `choice` pointer. -/
def select_workspace_choice (out : List Nat) : Option (List Nat) :=
  (run_menu_choice workspace_names out).map (fun i => workspace_names.getD i [])

/-! The poll loop of `main` (one input descriptor). -/

/-- The revents bits of the single polled input descriptor that the loop
body inspects. -/
structure revents where
  pollerr : Bool
  pollhup : Bool
  pollin : Bool
deriving DecidableEq, Repr

/-- Outcome of one positive poll wake-up: either the loop body completes
(with the resulting running flag) or a `failwith` aborts the process. -/
inductive wake_outcome where
  | ok (running : Bool)
  | fatal
deriving DecidableEq, Repr

/-- The `r > 0` branch of `main`'s loop body: POLLHUP is handled (clearing
the running flag) only inside the POLLERR branch; a POLLERR without
POLLHUP hits `failwith("unhandled poll error condition")`, and any revents
bit left uncleared hits `failwith("unhandled events")`. -/
def handle_wakeup (running : Bool) (r : revents) : wake_outcome :=
  if r.pollerr then
    if r.pollhup then .ok false
    else .fatal
  else
    if r.pollhup then .fatal
    else .ok running

/-- How a run of the main loop ends. -/
inductive run_result where
  | graceful
  | aborted
deriving DecidableEq, Repr

/-- The main loop over a sequence of positive poll wake-ups: it stops into
`state_deinit` (graceful teardown) as soon as the running flag is false,
aborts on a fatal wake-up, and otherwise keeps waiting (`none`). -/
def run_loop : Bool → List revents → Option run_result
  | false, _ => some .graceful
  | true, [] => none
  | true, r :: rs =>
    match handle_wakeup true r with
    | .fatal => some .aborted
    | .ok b => run_loop b rs

/-! Observation helpers used by the claim statements. -/

/-- The codes of all EV_KEY press records in a trace, in order. -/
def key_presses (t : List emission) : List Nat :=
  t.filterMap fun x =>
    match x with
    | .ev ty c v => if ty = EV_KEY ∧ v = 1 then some c else none
    | _ => none

/-- The codes of all EV_KEY release records in a trace, in order. -/
def key_releases (t : List emission) : List Nat :=
  t.filterMap fun x =>
    match x with
    | .ev ty c v => if ty = EV_KEY ∧ v = 0 then some c else none
    | _ => none

/-- The requested modifier key codes in the press order of
`emit_key_event`: shift, meta, alt, super, ctrl. -/
def requested_mods (m : mod) : List Nat :=
  (if m.shift then [KEY_LEFTSHIFT] else []) ++
  (if m.meta then [KEY_LEFTMETA] else []) ++
  (if m.alt then [KEY_LEFTALT] else []) ++
  (if m.super then [KEY_RIGHTMETA] else []) ++
  (if m.ctrl then [KEY_LEFTCTRL] else [])

/-- The application identities known to the dispatch chain, in table
order. -/
def app_classes : List String :=
  ["feh", "mpv", "streamlink-twitch-gui", "chromium", "dmenu", "spotify",
   "obs", "Sausage.x86_64"]

/-- The tracked physical control codes of `update_key_state`. -/
def tracked_codes : List Nat :=
  [DPAD_UP, DPAD_RIGHT, DPAD_DOWN, DPAD_LEFT, BTN_BASE3, BTN_BASE4,
   BTN_THUMB, BTN_THUMB2]

/-- The flag of a tracked code (false on untracked codes). -/
def get_flag (s : state) (code : Nat) : Bool :=
  if code = DPAD_UP then s.k.up
  else if code = DPAD_RIGHT then s.k.right
  else if code = DPAD_DOWN then s.k.down
  else if code = DPAD_LEFT then s.k.left
  else if code = BTN_BASE3 then s.k.select
  else if code = BTN_BASE4 then s.k.start
  else if code = BTN_THUMB then s.k.a
  else if code = BTN_THUMB2 then s.k.b
  else false

/-! Theorems. -/

/-- The chord-state update never touches the mouse fields. -/
theorem update_key_state_mouse (s : state) (e : input_event) :
    (update_key_state s e).1.mouse_movement_distance = s.mouse_movement_distance ∧
    (update_key_state s e).1.mouse_mode = s.mouse_mode :=
  ⟨rfl, rfl⟩

theorem feh_branch_distance (s : state) (e : input_event) :
    (feh_branch s e).1.mouse_movement_distance = s.mouse_movement_distance := by
  by_cases hb : s.k.b <;> simp [feh_branch, map_dpad_to_arrow_keys, hb]

theorem mpv_branch_distance (s : state) (e : input_event) :
    (mpv_branch s e).1.mouse_movement_distance = s.mouse_movement_distance := by
  by_cases hb : s.k.b <;> simp [mpv_branch, map_dpad_to_arrow_keys, hb]

theorem streamlink_branch_distance (s : state) (e : input_event) :
    (streamlink_branch s e).1.mouse_movement_distance
      = s.mouse_movement_distance := by
  by_cases hb : s.k.b <;> simp [streamlink_branch, map_dpad_to_mouse, hb]

theorem chromium_branch_distance (s : state) (e : input_event) :
    (chromium_branch s e).1.mouse_movement_distance
      = s.mouse_movement_distance := by
  by_cases hb : s.k.b <;> simp [chromium_branch, map_dpad_to_mouse, hb]

theorem dmenu_branch_distance (s : state) (e : input_event) :
    (dmenu_branch s e).1.mouse_movement_distance = s.mouse_movement_distance := by
  simp [dmenu_branch, map_dpad_to_arrow_keys]

theorem spotify_branch_distance (s : state) (e : input_event) :
    (spotify_branch s e).1.mouse_movement_distance
      = s.mouse_movement_distance := by
  by_cases hb : s.k.b <;> simp [spotify_branch, map_dpad_to_mouse, hb]

theorem obs_branch_distance (s : state) (e : input_event) :
    (obs_branch s e).1.mouse_movement_distance = s.mouse_movement_distance := by
  by_cases hb : s.k.b <;> simp [obs_branch, hb]

theorem sausage_branch_distance (s : state) (e : input_event) :
    (sausage_branch s e).1.mouse_movement_distance
      = s.mouse_movement_distance := by
  simp [sausage_branch, map_dpad_to_arrow_keys]

/-- No application branch of the dispatch chain touches the distance
counter. -/
theorem dispatch_app_distance (s : state) (w : window) (e : input_event) :
    (dispatch_app s w e).1.mouse_movement_distance
      = s.mouse_movement_distance := by
  unfold dispatch_app
  split_ifs <;>
    simp [feh_branch_distance, mpv_branch_distance, streamlink_branch_distance,
      chromium_branch_distance, dmenu_branch_distance, spotify_branch_distance,
      obs_branch_distance, sausage_branch_distance]

/-- Event dispatch never changes the mouse-movement distance counter. -/
theorem handle_event_distance (s : state) (w : window) (e : input_event) :
    (handle_event s w e).1.mouse_movement_distance
      = s.mouse_movement_distance := by
  by_cases ht : e.etype ≠ EV_KEY
  · simp [handle_event, ht]
  · by_cases hs : (update_key_state s e).1.k.select
    · simp [handle_event, ht, hs, update_key_state_mouse]
    · simp [handle_event, ht, hs, dispatch_app_distance, update_key_state_mouse]

/-- C4 counterexample: a poll wake-up reporting the hang-up condition
without the error condition skips the nested handler, leaves the POLLHUP
bit uncleared, and aborts through `failwith("unhandled events")` instead
of setting the running flag false — the loop ends aborted, not in
graceful teardown. -/
theorem hangup_without_err_aborts :
    handle_wakeup true ⟨false, true, false⟩ = wake_outcome.fatal ∧
    run_loop true [⟨false, true, false⟩] = some run_result.aborted := by
  exact ⟨rfl, rfl⟩

/-- C4 (amended): when the input descriptor reports the hang-up condition
together with the error condition (as the event device delivers on
disconnect), the wake-up clears the running flag instead of aborting, and
the loop exits into graceful teardown no matter what would come next. -/
theorem hangup_with_err_graceful (b : Bool) (r : revents) (rs : List revents)
    (herr : r.pollerr = true) (hhup : r.pollhup = true) :
    handle_wakeup b r = wake_outcome.ok false ∧
    run_loop true (r :: rs) = some run_result.graceful := by
  constructor
  · simp [handle_wakeup, herr, hhup]
  · show (match handle_wakeup true r with
      | .fatal => some run_result.aborted
      | .ok b => run_loop b rs) = some run_result.graceful
    simp [handle_wakeup, herr, hhup, run_loop]

/-- C4 witness: the amended theorem applied at a concrete disconnect
wake-up. -/
theorem hangup_with_err_graceful_witness :
    handle_wakeup true ⟨true, true, false⟩ = wake_outcome.ok false ∧
    run_loop true [⟨true, true, false⟩] = some run_result.graceful :=
  hangup_with_err_graceful true ⟨true, true, false⟩ [] rfl rfl

/-- C8: for every tracked code, a press followed by a release of that code
leaves the corresponding flag false and every other flag as it was; an
event whose code is untracked, or whose value is neither 0 nor 1, does not
mutate the chord state at all. -/
theorem update_key_state_toggle_frame (s : state) (code : Nat)
    (e : input_event) (hc : code ∈ tracked_codes)
    (he : e.code ∉ tracked_codes ∨ (e.value ≠ 0 ∧ e.value ≠ 1)) :
    get_flag ((update_key_state
      ((update_key_state s ⟨EV_KEY, code, 1⟩).1) ⟨EV_KEY, code, 0⟩).1) code
        = false ∧
    (∀ c ∈ tracked_codes, c ≠ code →
      get_flag ((update_key_state
        ((update_key_state s ⟨EV_KEY, code, 1⟩).1) ⟨EV_KEY, code, 0⟩).1) c
          = get_flag s c) ∧
    (update_key_state s e).1 = s := by
  refine ⟨?_, ?_, ?_⟩
  · simp only [tracked_codes, List.mem_cons, List.not_mem_nil, or_false] at hc
    rcases hc with h|h|h|h|h|h|h|h <;> subst h <;>
      simp [update_key_state, get_flag, DPAD_UP, DPAD_RIGHT, DPAD_DOWN,
        DPAD_LEFT, BTN_BASE3, BTN_BASE4, BTN_THUMB, BTN_THUMB2]
  · intro c hcc hne
    simp only [tracked_codes, List.mem_cons, List.not_mem_nil, or_false] at hc hcc
    rcases hc with h|h|h|h|h|h|h|h <;> subst h <;>
      rcases hcc with h'|h'|h'|h'|h'|h'|h'|h' <;> subst h' <;>
      simp_all [update_key_state, get_flag, DPAD_UP, DPAD_RIGHT, DPAD_DOWN,
        DPAD_LEFT, BTN_BASE3, BTN_BASE4, BTN_THUMB, BTN_THUMB2]
  · rcases he with h | ⟨h0, h1⟩
    · simp only [tracked_codes, DPAD_UP, DPAD_RIGHT, DPAD_DOWN, DPAD_LEFT,
        BTN_BASE3, BTN_BASE4, BTN_THUMB, BTN_THUMB2, List.mem_cons,
        List.not_mem_nil, or_false, not_or] at h
      obtain ⟨n1, n2, n3, n4, n5, n6, n7, n8⟩ := h
      simp [update_key_state, n1, n2, n3, n4, n5, n6, n7, n8, DPAD_UP,
        DPAD_RIGHT, DPAD_DOWN, DPAD_LEFT, BTN_BASE3, BTN_BASE4, BTN_THUMB,
        BTN_THUMB2]
    · simp [update_key_state, h0, h1]

/-- C8 witness: the theorem applied at a concrete press/release of DPAD_UP
from the startup state, with an untracked-code event. -/
theorem update_key_state_toggle_frame_witness :
    get_flag ((update_key_state
      ((update_key_state init_state ⟨EV_KEY, DPAD_UP, 1⟩).1)
        ⟨EV_KEY, DPAD_UP, 0⟩).1) DPAD_UP = false ∧
    (∀ c ∈ tracked_codes, c ≠ DPAD_UP →
      get_flag ((update_key_state
        ((update_key_state init_state ⟨EV_KEY, DPAD_UP, 1⟩).1)
          ⟨EV_KEY, DPAD_UP, 0⟩).1) c = get_flag init_state c) ∧
    (update_key_state init_state ⟨EV_KEY, 5, 1⟩).1 = init_state :=
  update_key_state_toggle_frame init_state DPAD_UP ⟨EV_KEY, 5, 1⟩
    (by decide) (Or.inl (by decide))

/-- C7: on a timeout tick with mouse emulation active, either no
directional flag is held — then the mode is left and the distance reset to
the floor 10 with nothing emitted — or some flag is held, and then the
distance grows by exactly 1 (hence is non-decreasing), the burst is empty
exactly when both scaled deltas are zero, each axis record appears exactly
when its delta is non-zero and always carries the scaled delta
`distance / 10`, and a non-empty burst ends with the sync marker. -/
theorem handle_timeout_spec (s : state) (hm : s.mouse_mode = true) :
    (any_direction s = false →
      handle_timeout s
        = ({ s with mouse_mode := false, mouse_movement_distance := 10 }, [])) ∧
    (any_direction s = true →
      (handle_timeout s).1.mouse_movement_distance
          = s.mouse_movement_distance + 1 ∧
      s.mouse_movement_distance ≤ (handle_timeout s).1.mouse_movement_distance ∧
      ((handle_timeout s).2 = [] ↔ (mouse_dx s = 0 ∧ mouse_dy s = 0)) ∧
      (emission.ev EV_REL REL_X (mouse_dx s) ∈ (handle_timeout s).2
        ↔ mouse_dx s ≠ 0) ∧
      (emission.ev EV_REL REL_Y (mouse_dy s) ∈ (handle_timeout s).2
        ↔ mouse_dy s ≠ 0) ∧
      (∀ v, emission.ev EV_REL REL_X v ∈ (handle_timeout s).2 → v = mouse_dx s) ∧
      (∀ v, emission.ev EV_REL REL_Y v ∈ (handle_timeout s).2 → v = mouse_dy s) ∧
      ((mouse_dx s ≠ 0 ∨ mouse_dy s ≠ 0) →
        (handle_timeout s).2.getLast? = some synev)) := by
  constructor
  · intro hd
    simp only [any_direction, Bool.or_eq_false_iff] at hd
    obtain ⟨⟨⟨hu, hdn⟩, hl⟩, hr⟩ := hd
    simp [handle_timeout, hm, hu, hdn, hl, hr]
  · intro hd
    have hcond : ¬(s.k.up = false ∧ s.k.down = false ∧ s.k.left = false ∧
        s.k.right = false) := by
      simp only [any_direction] at hd
      intro hcon
      obtain ⟨hu, hdn, hl, hr⟩ := hcon
      simp [hu, hdn, hl, hr] at hd
    have hstep : handle_timeout s
        = ({ s with mouse_movement_distance := s.mouse_movement_distance + 1 },
            emit_mouse_movements s) := by
      simp [handle_timeout, hm, hcond]
    rw [hstep]
    refine ⟨rfl, Nat.le_succ _, ?_, ?_, ?_, ?_, ?_, ?_⟩ <;>
      by_cases hx : mouse_dx s = 0 <;> by_cases hy : mouse_dy s = 0 <;>
      simp [emit_mouse_movements, hx, hy, synev, EV_REL, EV_SYN, REL_X, REL_Y,
        SYN_REPORT, List.getLast?]

/-- C7 witness: the theorem applied at a concrete mouse-mode state with the
left flag held and distance 25. -/
theorem handle_timeout_spec_witness :
    (any_direction
        { k := ⟨false, false, false, true, false, false, false, false⟩,
          mouse_mode := true, mouse_movement_distance := 25 } = false →
      handle_timeout
        { k := ⟨false, false, false, true, false, false, false, false⟩,
          mouse_mode := true, mouse_movement_distance := 25 }
        = ({ k := ⟨false, false, false, true, false, false, false, false⟩,
             mouse_mode := false, mouse_movement_distance := 10 }, [])) ∧
    (any_direction
        { k := ⟨false, false, false, true, false, false, false, false⟩,
          mouse_mode := true, mouse_movement_distance := 25 } = true →
      (handle_timeout
        { k := ⟨false, false, false, true, false, false, false, false⟩,
          mouse_mode := true, mouse_movement_distance := 25 }).1.mouse_movement_distance
          = 25 + 1 ∧
      25 ≤ (handle_timeout
        { k := ⟨false, false, false, true, false, false, false, false⟩,
          mouse_mode := true, mouse_movement_distance := 25 }).1.mouse_movement_distance ∧
      ((handle_timeout
        { k := ⟨false, false, false, true, false, false, false, false⟩,
          mouse_mode := true, mouse_movement_distance := 25 }).2 = []
        ↔ (mouse_dx
            { k := ⟨false, false, false, true, false, false, false, false⟩,
              mouse_mode := true, mouse_movement_distance := 25 } = 0 ∧
           mouse_dy
            { k := ⟨false, false, false, true, false, false, false, false⟩,
              mouse_mode := true, mouse_movement_distance := 25 } = 0)) ∧
      (emission.ev EV_REL REL_X (mouse_dx
          { k := ⟨false, false, false, true, false, false, false, false⟩,
            mouse_mode := true, mouse_movement_distance := 25 })
        ∈ (handle_timeout
          { k := ⟨false, false, false, true, false, false, false, false⟩,
            mouse_mode := true, mouse_movement_distance := 25 }).2
        ↔ mouse_dx
            { k := ⟨false, false, false, true, false, false, false, false⟩,
              mouse_mode := true, mouse_movement_distance := 25 } ≠ 0) ∧
      (emission.ev EV_REL REL_Y (mouse_dy
          { k := ⟨false, false, false, true, false, false, false, false⟩,
            mouse_mode := true, mouse_movement_distance := 25 })
        ∈ (handle_timeout
          { k := ⟨false, false, false, true, false, false, false, false⟩,
            mouse_mode := true, mouse_movement_distance := 25 }).2
        ↔ mouse_dy
            { k := ⟨false, false, false, true, false, false, false, false⟩,
              mouse_mode := true, mouse_movement_distance := 25 } ≠ 0) ∧
      (∀ v, emission.ev EV_REL REL_X v ∈ (handle_timeout
          { k := ⟨false, false, false, true, false, false, false, false⟩,
            mouse_mode := true, mouse_movement_distance := 25 }).2
        → v = mouse_dx
            { k := ⟨false, false, false, true, false, false, false, false⟩,
              mouse_mode := true, mouse_movement_distance := 25 }) ∧
      (∀ v, emission.ev EV_REL REL_Y v ∈ (handle_timeout
          { k := ⟨false, false, false, true, false, false, false, false⟩,
            mouse_mode := true, mouse_movement_distance := 25 }).2
        → v = mouse_dy
            { k := ⟨false, false, false, true, false, false, false, false⟩,
              mouse_mode := true, mouse_movement_distance := 25 }) ∧
      ((mouse_dx
          { k := ⟨false, false, false, true, false, false, false, false⟩,
            mouse_mode := true, mouse_movement_distance := 25 } ≠ 0 ∨
        mouse_dy
          { k := ⟨false, false, false, true, false, false, false, false⟩,
            mouse_mode := true, mouse_movement_distance := 25 } ≠ 0) →
        (handle_timeout
          { k := ⟨false, false, false, true, false, false, false, false⟩,
            mouse_mode := true, mouse_movement_distance := 25 }).2.getLast?
          = some synev)) :=
  handle_timeout_spec
    { k := ⟨false, false, false, true, false, false, false, false⟩,
      mouse_mode := true, mouse_movement_distance := 25 } rfl

/-- C5: for a key emission with a non-empty modifier set, the press/release
pair emits exactly the requested modifiers, in the fixed order shift, meta,
alt, super, ctrl, followed by the target key's single press; the releases
are the target key's single release followed by the pressed modifiers in
exactly the reverse order; and a requested meta press is immediately
followed by the settle delay. -/
theorem emit_key_press_mod_balanced (key : Nat) (m : mod)
    (hm : m.shift = true ∨ m.meta = true ∨ m.alt = true ∨ m.super = true ∨
      m.ctrl = true) :
    key_presses (emit_key_press_mod key m) = requested_mods m ++ [key] ∧
    key_releases (emit_key_press_mod key m) = key :: (requested_mods m).reverse ∧
    (m.meta = true → ∃ pre post, emit_key_press_mod key m
      = pre ++ [emission.ev EV_KEY KEY_LEFTMETA 1, emission.sleep] ++ post) := by
  refine ⟨?_, ?_, ?_⟩
  · rcases m with ⟨ms, mm, ma, mc, mu⟩
    cases ms <;> cases mm <;> cases ma <;> cases mc <;> cases mu <;>
      simp [key_presses, emit_key_press_mod, emit_key_event, requested_mods,
        synev, EV_KEY, EV_SYN, SYN_REPORT, KEY_LEFTSHIFT, KEY_LEFTMETA,
        KEY_LEFTALT, KEY_RIGHTMETA, KEY_LEFTCTRL]
  · rcases m with ⟨ms, mm, ma, mc, mu⟩
    cases ms <;> cases mm <;> cases ma <;> cases mc <;> cases mu <;>
      simp [key_releases, emit_key_press_mod, emit_key_event, requested_mods,
        synev, EV_KEY, EV_SYN, SYN_REPORT, KEY_LEFTSHIFT, KEY_LEFTMETA,
        KEY_LEFTALT, KEY_RIGHTMETA, KEY_LEFTCTRL]
  · intro hmeta
    refine ⟨(if m.shift then [emission.ev EV_KEY KEY_LEFTSHIFT 1] else []),
      (if m.alt then [emission.ev EV_KEY KEY_LEFTALT 1] else []) ++
      (if m.super then [emission.ev EV_KEY KEY_RIGHTMETA 1] else []) ++
      (if m.ctrl then [emission.ev EV_KEY KEY_LEFTCTRL 1] else []) ++
      [synev, emission.ev EV_KEY key 1, synev] ++ emit_key_event key 0 m, ?_⟩
    simp [emit_key_press_mod, emit_key_event, hmeta, List.append_assoc]

/-- C5 witness: the theorem applied at the concrete key H with every
modifier requested. -/
theorem emit_key_press_mod_balanced_witness :
    key_presses (emit_key_press_mod KEY_H ⟨true, true, true, true, true⟩)
      = requested_mods ⟨true, true, true, true, true⟩ ++ [KEY_H] ∧
    key_releases (emit_key_press_mod KEY_H ⟨true, true, true, true, true⟩)
      = KEY_H :: (requested_mods ⟨true, true, true, true, true⟩).reverse ∧
    ((⟨true, true, true, true, true⟩ : mod).meta = true →
      ∃ pre post, emit_key_press_mod KEY_H ⟨true, true, true, true, true⟩
        = pre ++ [emission.ev EV_KEY KEY_LEFTMETA 1, emission.sleep] ++ post) :=
  emit_key_press_mod_balanced KEY_H ⟨true, true, true, true, true⟩
    (Or.inl rfl)

/-- C6: while the select flag is held (after the per-event state update),
dispatch never consults the focused window — the result is the same for
every window context, so the per-application mappings are bypassed; and a
DPAD_LEFT press under the held chord emits exactly the alt+H press/release
bracket followed by the window-outline side effect. -/
theorem select_chord_exclusive (s : state) (w w' : window) (e : input_event)
    (he : e.etype = EV_KEY)
    (hsel : (update_key_state s e).1.k.select = true) :
    handle_event s w e = handle_event s w' e ∧
    (s.k.select = true →
      (handle_event s w ⟨EV_KEY, DPAD_LEFT, 1⟩).2
        = emit_key_press_mod KEY_H { alt := true } ++ [emission.outline]) := by
  constructor
  · by_cases ht : e.etype ≠ EV_KEY
    · simp [handle_event, ht]
    · simp [handle_event, ht, hsel]
  · intro hs
    have hup : update_key_state s ⟨EV_KEY, DPAD_LEFT, 1⟩
        = ({ s with k := { s.k with left := true } }, []) := by
      simp [update_key_state, EV_KEY, DPAD_LEFT, DPAD_UP, DPAD_RIGHT,
        DPAD_DOWN, BTN_BASE3, BTN_BASE4, BTN_THUMB, BTN_THUMB2]
    unfold handle_event
    rw [if_neg (by simp [EV_KEY])]
    simp only [hup, hs]
    simp [select_chord, hs, DPAD_LEFT, DPAD_UP, DPAD_RIGHT, DPAD_DOWN,
      BTN_BASE3, BTN_BASE4, BTN_THUMB, BTN_THUMB2]

/-- C6 witness: the theorem applied with the select flag held, a DPAD_LEFT
press, and two different window contexts (one of them a known identity). -/
theorem select_chord_exclusive_witness :
    handle_event
        { k := ⟨false, false, false, false, true, false, false, false⟩,
          mouse_mode := false, mouse_movement_distance := 0 }
        ⟨["mpv"]⟩ ⟨EV_KEY, DPAD_LEFT, 1⟩
      = handle_event
        { k := ⟨false, false, false, false, true, false, false, false⟩,
          mouse_mode := false, mouse_movement_distance := 0 }
        ⟨[]⟩ ⟨EV_KEY, DPAD_LEFT, 1⟩ ∧
    (({ k := ⟨false, false, false, false, true, false, false, false⟩,
        mouse_mode := false, mouse_movement_distance := 0 } : state).k.select
        = true →
      (handle_event
        { k := ⟨false, false, false, false, true, false, false, false⟩,
          mouse_mode := false, mouse_movement_distance := 0 }
        ⟨["mpv"]⟩ ⟨EV_KEY, DPAD_LEFT, 1⟩).2
        = emit_key_press_mod KEY_H { alt := true } ++ [emission.outline]) :=
  select_chord_exclusive
    { k := ⟨false, false, false, false, true, false, false, false⟩,
      mouse_mode := false, mouse_movement_distance := 0 }
    ⟨["mpv"]⟩ ⟨[]⟩ ⟨EV_KEY, DPAD_LEFT, 1⟩ rfl (by decide)

/-- C1 counterexample: with the select flag false and a focused window
matching no known application identity (empty class tag set), a DPAD_UP
press emits nothing at all — in particular not the arrow-key press plus
sync that the claimed default behavior would produce. -/
theorem no_match_dpad_cex :
    (handle_event init_state ⟨[]⟩ ⟨EV_KEY, DPAD_UP, 1⟩).2 = [] ∧
    (handle_event init_state ⟨[]⟩ ⟨EV_KEY, DPAD_UP, 1⟩).2
      ≠ [emission.ev EV_KEY KEY_UP 1, synev] := by
  decide

/-- C1 (amended): when the select flag is false and the focused window's
class tags match none of the known application identities, the dispatch
chain has no default branch: a directional-pad press or release emits
nothing (no arrow-key fallback and no secondary behavior). -/
theorem no_match_dpad_emits_nothing (s : state) (w : window) (e : input_event)
    (he : e.etype = EV_KEY) (hsel : s.k.select = false)
    (hw : ∀ c ∈ app_classes, window_has_class w c = false)
    (hcode : e.code = DPAD_UP ∨ e.code = DPAD_DOWN ∨ e.code = DPAD_LEFT ∨
      e.code = DPAD_RIGHT)
    (hv : e.value = 1 ∨ e.value = 0) :
    (handle_event s w e).2 = [] := by
  have hfeh := hw "feh" (by simp [app_classes])
  have hmpv := hw "mpv" (by simp [app_classes])
  have hstr := hw "streamlink-twitch-gui" (by simp [app_classes])
  have hchr := hw "chromium" (by simp [app_classes])
  have hdm := hw "dmenu" (by simp [app_classes])
  have hsp := hw "spotify" (by simp [app_classes])
  have hobs := hw "obs" (by simp [app_classes])
  have hsau := hw "Sausage.x86_64" (by simp [app_classes])
  rcases hcode with hc|hc|hc|hc <;> rcases hv with hv'|hv' <;>
    simp [handle_event, update_key_state, dispatch_app, he, hc, hv', hsel,
      hfeh, hmpv, hstr, hchr, hdm, hsp, hobs, hsau, EV_KEY, DPAD_UP,
      DPAD_RIGHT, DPAD_DOWN, DPAD_LEFT, BTN_BASE3, BTN_BASE4, BTN_THUMB,
      BTN_THUMB2]

/-- C1 witness: the amended theorem applied at the startup state, a window
with an unknown class tag, and a DPAD_DOWN release. -/
theorem no_match_dpad_emits_nothing_witness :
    (handle_event init_state ⟨["xterm"]⟩ ⟨EV_KEY, DPAD_DOWN, 0⟩).2 = [] :=
  no_match_dpad_emits_nothing init_state ⟨["xterm"]⟩ ⟨EV_KEY, DPAD_DOWN, 0⟩
    rfl rfl (by decide) (Or.inr (Or.inl rfl)) (Or.inr rfl)

/-- C2 counterexample: a DPAD_UP press dispatched to a feh-focused window
while mouse emulation is active routes through `map_dpad_to_arrow_keys`,
which clears mouse_mode but leaves the distance counter at 42 instead of
resetting it to the floor 10. -/
theorem dispatch_exit_no_reset_cex :
    ({ k := ⟨false, false, false, false, false, false, false, false⟩,
       mouse_mode := true, mouse_movement_distance := 42 } : state).mouse_mode
        = true ∧
    (handle_event
      { k := ⟨false, false, false, false, false, false, false, false⟩,
        mouse_mode := true, mouse_movement_distance := 42 }
      ⟨["feh"]⟩ ⟨EV_KEY, DPAD_UP, 1⟩).1.mouse_mode = false ∧
    (handle_event
      { k := ⟨false, false, false, false, false, false, false, false⟩,
        mouse_mode := true, mouse_movement_distance := 42 }
      ⟨["feh"]⟩ ⟨EV_KEY, DPAD_UP, 1⟩).1.mouse_movement_distance ≠ 10 := by
  decide

/-- C2 (amended): the distance counter is reset to the floor 10 exactly on
the timeout-tick transition of mouse_mode from true to false; event
dispatch never changes the distance (so its mouse_mode-clearing paths
leave it where it was); and while mouse_mode stays true the distance only
changes on a timeout tick, by exactly +1. -/
theorem mouse_distance_amended (s : state) (w : window) (e : input_event) :
    (handle_event s w e).1.mouse_movement_distance
      = s.mouse_movement_distance ∧
    (s.mouse_mode = true → any_direction s = false →
      (handle_timeout s).1.mouse_mode = false ∧
      (handle_timeout s).1.mouse_movement_distance = 10) ∧
    (s.mouse_mode = true → any_direction s = true →
      (handle_timeout s).1.mouse_mode = true ∧
      (handle_timeout s).1.mouse_movement_distance
        = s.mouse_movement_distance + 1) ∧
    (s.mouse_mode = false → handle_timeout s = (s, [])) := by
  refine ⟨handle_event_distance s w e, ?_, ?_, ?_⟩
  · intro hm hd
    simp only [any_direction, Bool.or_eq_false_iff] at hd
    obtain ⟨⟨⟨hu, hdn⟩, hl⟩, hr⟩ := hd
    simp [handle_timeout, hm, hu, hdn, hl, hr]
  · intro hm hd
    have hcond : ¬(s.k.up = false ∧ s.k.down = false ∧ s.k.left = false ∧
        s.k.right = false) := by
      simp only [any_direction] at hd
      intro hcon
      obtain ⟨hu, hdn, hl, hr⟩ := hcon
      simp [hu, hdn, hl, hr] at hd
    simp [handle_timeout, hm, hcond]
  · intro hm
    simp [handle_timeout, hm]

/-- C2 witness: the amended theorem applied at a mouse-mode state with the
right flag held, distance 17, a chromium window and a B press. -/
theorem mouse_distance_amended_witness :
    (handle_event
      { k := ⟨false, false, true, false, false, false, false, false⟩,
        mouse_mode := true, mouse_movement_distance := 17 }
      ⟨["chromium"]⟩ ⟨EV_KEY, BTN_THUMB2, 1⟩).1.mouse_movement_distance = 17 ∧
    (({ k := ⟨false, false, true, false, false, false, false, false⟩,
        mouse_mode := true, mouse_movement_distance := 17 } : state).mouse_mode
          = true →
      any_direction
        { k := ⟨false, false, true, false, false, false, false, false⟩,
          mouse_mode := true, mouse_movement_distance := 17 } = false →
      (handle_timeout
        { k := ⟨false, false, true, false, false, false, false, false⟩,
          mouse_mode := true, mouse_movement_distance := 17 }).1.mouse_mode
          = false ∧
      (handle_timeout
        { k := ⟨false, false, true, false, false, false, false, false⟩,
          mouse_mode := true,
          mouse_movement_distance := 17 }).1.mouse_movement_distance = 10) ∧
    (({ k := ⟨false, false, true, false, false, false, false, false⟩,
        mouse_mode := true, mouse_movement_distance := 17 } : state).mouse_mode
          = true →
      any_direction
        { k := ⟨false, false, true, false, false, false, false, false⟩,
          mouse_mode := true, mouse_movement_distance := 17 } = true →
      (handle_timeout
        { k := ⟨false, false, true, false, false, false, false, false⟩,
          mouse_mode := true, mouse_movement_distance := 17 }).1.mouse_mode
          = true ∧
      (handle_timeout
        { k := ⟨false, false, true, false, false, false, false, false⟩,
          mouse_mode := true,
          mouse_movement_distance := 17 }).1.mouse_movement_distance = 17 + 1) ∧
    (({ k := ⟨false, false, true, false, false, false, false, false⟩,
        mouse_mode := true, mouse_movement_distance := 17 } : state).mouse_mode
          = false →
      handle_timeout
        { k := ⟨false, false, true, false, false, false, false, false⟩,
          mouse_mode := true, mouse_movement_distance := 17 }
        = ({ k := ⟨false, false, true, false, false, false, false, false⟩,
             mouse_mode := true, mouse_movement_distance := 17 }, [])) :=
  mouse_distance_amended
    { k := ⟨false, false, true, false, false, false, false, false⟩,
      mouse_mode := true, mouse_movement_distance := 17 }
    ⟨["chromium"]⟩ ⟨EV_KEY, BTN_THUMB2, 1⟩

/-- C3: when the chooser of the nested workspace sub-menu closes its
output stream with no selection, `run_menu` returns NULL (`none` here) and
invokes no callback — but `select_workspace` then reads `choice->name`
without a NULL check, so the process dereferences a null pointer instead
of continuing normally.  This theorem evaluates the embedded code at that
failing input: the nested menu produces no choice, and the subsequent
unconditional dereference is the `none` of `select_workspace_choice`. -/
theorem select_workspace_null_choice :
    run_menu_choice workspace_names [] = none ∧
    select_workspace_choice [] = none := by
  decide

set_option maxRecDepth 100000 in
/-- C9 counterexample: a chooser output of exactly 1024 bytes containing
no newline at all — the label "refresh", a NUL byte, then 1016 filler
bytes — falls out of the read loop into the matching code with the raw,
unterminated buffer, and `strncmp(name, buf, 1024)` then matches the item
"refresh", so its action is invoked even though the stream closed before
any newline was read. -/
theorem run_menu_overflow_match_cex :
    (10 : Nat) ∉ (str_bytes "refresh" ++ 0 :: List.replicate 1016 65) ∧
    run_menu_choice [str_bytes "refresh"]
      (str_bytes "refresh" ++ 0 :: List.replicate 1016 65) = some 0 := by
  decide

/-- C9 (amended): when the chooser's output is shorter than the 1024-byte
read buffer, a stream that closes before any newline matches nothing for
any item list; a newline-terminated line is matched exactly against the
stored labels in order with the first match winning — "refresh" matches
the item labeled "refresh" and not one labeled "refresh2", and a
duplicated label is resolved to the earlier item.  (A 1024-byte output
with no newline instead falls through to matching the raw buffer.) -/
theorem run_menu_matching_amended (names : List (List Nat)) (out : List Nat)
    (hlen : out.length < menu_buf_size) (hnl : (10 : Nat) ∉ out) :
    run_menu_choice names out = none ∧
    run_menu_choice [str_bytes "refresh"] (str_bytes "refresh" ++ [10])
      = some 0 ∧
    run_menu_choice [str_bytes "refresh2"] (str_bytes "refresh" ++ [10])
      = none ∧
    run_menu_choice [str_bytes "refresh2", str_bytes "refresh"]
      (str_bytes "refresh" ++ [10]) = some 1 ∧
    run_menu_choice [str_bytes "refresh", str_bytes "refresh"]
      (str_bytes "refresh" ++ [10]) = some 0 := by
  refine ⟨?_, by decide, by decide, by decide, by decide⟩
  have htake : out.take menu_buf_size = out :=
    List.take_of_length_le (le_of_lt hlen)
  have hcont : out.contains 10 = false := by
    simpa using hnl
  simp [run_menu_choice, run_menu_read, htake, hcont, hnl, hlen]

/-- C9 witness: the amended theorem applied at a one-item list and a
one-byte newline-free output. -/
theorem run_menu_matching_amended_witness :
    run_menu_choice [str_bytes "refresh"] [65] = none ∧
    run_menu_choice [str_bytes "refresh"] (str_bytes "refresh" ++ [10])
      = some 0 ∧
    run_menu_choice [str_bytes "refresh2"] (str_bytes "refresh" ++ [10])
      = none ∧
    run_menu_choice [str_bytes "refresh2", str_bytes "refresh"]
      (str_bytes "refresh" ++ [10]) = some 1 ∧
    run_menu_choice [str_bytes "refresh", str_bytes "refresh"]
      (str_bytes "refresh" ++ [10]) = some 0 :=
  run_menu_matching_amended [str_bytes "refresh"] [65] (by decide) (by decide)

/-- C10 counterexample: starting mouse emulation from the startup state
(distance 0) with the left flag held, the counter already holds the floor
value 10 after the tenth timeout tick while mouse_mode is still true — the
floor is reached during the first activation, not only after the first
deactivation. -/
theorem distance_floor_before_deactivation_cex :
    (tick_n 10
      { k := ⟨false, false, false, true, false, false, false, false⟩,
        mouse_mode := true,
        mouse_movement_distance := 0 }).mouse_movement_distance = 10 ∧
    (tick_n 10
      { k := ⟨false, false, false, true, false, false, false, false⟩,
        mouse_mode := true, mouse_movement_distance := 0 }).mouse_mode
      = true := by
  decide

/-- C10 (amended): the startup counter is 0, which is below the floor 10;
whenever the counter is below 10 a timeout tick emits no motion records,
so the first activation moves the pointer by nothing for its first ten
ticks; while mouse emulation stays active with a direction held the
counter grows by exactly one per tick (reaching the floor 10 on the tenth
tick of the first activation, while still active), and the flags are not
changed by ticking. -/
theorem startup_mouse_distance (s : state) :
    init_state.mouse_movement_distance = 0 ∧
    (s.mouse_movement_distance < 10 → (handle_timeout s).2 = []) ∧
    (s.mouse_mode = true → any_direction s = true →
      ∀ n : Nat,
        (tick_n n s).mouse_movement_distance = s.mouse_movement_distance + n ∧
        (tick_n n s).mouse_mode = true ∧ (tick_n n s).k = s.k) ∧
    (s.mouse_mode = true → any_direction s = true →
      s.mouse_movement_distance = 0 →
      ∀ n, n < 10 → (handle_timeout (tick_n n s)).2 = []) := by
  have hquiet : ∀ u : state, u.mouse_movement_distance < 10 →
      (handle_timeout u).2 = [] := by
    intro u hu
    have hdiv : u.mouse_movement_distance / 10 = 0 := Nat.div_eq_of_lt hu
    have hdx : mouse_dx u = 0 := by
      simp [mouse_dx, hdiv]
    have hdy : mouse_dy u = 0 := by
      simp [mouse_dy, hdiv]
    have hemit : emit_mouse_movements u = [] := by
      simp [emit_mouse_movements, hdx, hdy]
    unfold handle_timeout
    split_ifs <;> simp [hemit]
  have hgrow : ∀ (n : Nat) (u : state), u.mouse_mode = true →
      any_direction u = true →
      (tick_n n u).mouse_movement_distance = u.mouse_movement_distance + n ∧
      (tick_n n u).mouse_mode = true ∧ (tick_n n u).k = u.k := by
    intro n
    induction n with
    | zero => intro u hm hd; exact ⟨by simp [tick_n], by simp [tick_n, hm],
        by simp [tick_n]⟩
    | succ n ih =>
      intro u hm hd
      have hcond : ¬(u.k.up = false ∧ u.k.down = false ∧ u.k.left = false ∧
          u.k.right = false) := by
        simp only [any_direction] at hd
        intro hcon
        obtain ⟨hu, hdn, hl, hr⟩ := hcon
        simp [hu, hdn, hl, hr] at hd
      have hstep : (handle_timeout u).1
          = { u with mouse_movement_distance :=
              u.mouse_movement_distance + 1 } := by
        simp [handle_timeout, hm, hcond]
      have hnext := ih { u with mouse_movement_distance :=
          u.mouse_movement_distance + 1 } hm (by simpa [any_direction] using hd)
      show (tick_n n (handle_timeout u).1).mouse_movement_distance
          = u.mouse_movement_distance + (n + 1) ∧
        (tick_n n (handle_timeout u).1).mouse_mode = true ∧
        (tick_n n (handle_timeout u).1).k = u.k
      rw [hstep]
      refine ⟨?_, hnext.2.1, hnext.2.2⟩
      rw [hnext.1]
      show u.mouse_movement_distance + 1 + n
        = u.mouse_movement_distance + (n + 1)
      omega
  refine ⟨rfl, hquiet s, fun hm hd n => hgrow n s hm hd, ?_⟩
  intro hm hd h0 n hn
  apply hquiet
  have := (hgrow n s hm hd).1
  omega

/-- C10 witness: the amended theorem applied at the first activation from
the startup state (left flag held, distance 0), evaluated at tick 3. -/
theorem startup_mouse_distance_witness :
    init_state.mouse_movement_distance = 0 ∧
    (tick_n 3
      { k := ⟨false, false, false, true, false, false, false, false⟩,
        mouse_mode := true,
        mouse_movement_distance := 0 }).mouse_movement_distance = 0 + 3 ∧
    (handle_timeout (tick_n 3
      { k := ⟨false, false, false, true, false, false, false, false⟩,
        mouse_mode := true, mouse_movement_distance := 0 })).2 = [] := by
  have h := startup_mouse_distance
    { k := ⟨false, false, false, true, false, false, false, false⟩,
      mouse_mode := true, mouse_movement_distance := 0 }
  exact ⟨h.1, (h.2.2.1 rfl rfl 3).1, h.2.2.2 rfl rfl rfl 3 (by decide)⟩

end Xhook
